import Mathlib

/-!
Verification of the rust-mosaic bootstrap node (src/lib.rs).

The crate has two pieces: configuration resolution (reading two endpoint
addresses from environment variables with compiled-in fallback defaults,
implemented in Config::new) and a single diagnostic pass (run), which
connects to the origin chain endpoint via the blockchain module, queries
its account list and prints a header line followed by one line per
account.

Embedding choices:
  - the process environment snapshot is a function from variable name to
    Option String: some value stands for a present variable whose value is
    readable as valid unicode (env::var returning Ok), none for an absent
    or unreadable one (env::var returning Err);
  - Config::new returns Except String Config, mirroring the Rust result
    type Result with a static string error;
  - the blockchain module is declared in src/lib.rs but its file is not
    part of the snapshot, so the chain client is modelled from the spec as
    an opaque injectable capability (connect and get_accounts, each
    fallible) and run returns its result value paired with the list of
    lines written to standard output.
-/

namespace Mosaic

/-- Environment variable name for the origin chain address
(ENV_ORIGIN_ADDRESS in src/lib.rs). -/
def ENV_ORIGIN_ADDRESS : String := "MOSAIC_ORIGIN_ADDRESS"

/-- Environment variable name for the auxiliary chain address
(ENV_AUXILIARY_ADDRESS in src/lib.rs). -/
def ENV_AUXILIARY_ADDRESS : String := "MOSAIC_AUXILIARY_ADDRESS"

/-- Compiled-in default for the origin chain address
(DEFAULT_ORIGIN_ADDRESS in src/lib.rs). -/
def DEFAULT_ORIGIN_ADDRESS : String := "http://127.0.0.1:8545"

/-- Compiled-in default for the auxiliary chain address
(DEFAULT_AUXILIARY_ADDRESS in src/lib.rs). -/
def DEFAULT_AUXILIARY_ADDRESS : String := "http://127.0.0.1:8546"

/-- A snapshot of the process environment variable table: some value when
the variable is present and its value is readable as valid text (env::var
returns Ok), none when it is absent or unreadable (env::var returns Err). -/
def Env : Type := String → Option String

/-- Global config for running a mosaic node (struct Config in src/lib.rs). -/
structure Config where
  origin_address : String
  auxiliary_address : String
  deriving DecidableEq, Repr

/-- Configuration resolution (Config::new in src/lib.rs): each of the two
variables is looked up independently; a present readable value is used
verbatim, otherwise the compiled-in default for that variable is used.
The informational log lines do not affect the returned value and are not
modelled. -/
def Config.new (env : Env) : Except String Config :=
  let origin_address :=
    match env ENV_ORIGIN_ADDRESS with
    | some address => address
    | none => DEFAULT_ORIGIN_ADDRESS
  let auxiliary_address :=
    match env ENV_AUXILIARY_ADDRESS with
    | some address => address
    | none => DEFAULT_AUXILIARY_ADDRESS
  Except.ok { origin_address := origin_address, auxiliary_address := auxiliary_address }

/-- Configuration resolution with the two environment lookups performed in
the opposite order to Config.new, used to state that the two lookups
commute (no ordering dependency). -/
def Config.newAuxiliaryFirst (env : Env) : Except String Config :=
  let auxiliary_address :=
    match env ENV_AUXILIARY_ADDRESS with
    | some address => address
    | none => DEFAULT_AUXILIARY_ADDRESS
  let origin_address :=
    match env ENV_ORIGIN_ADDRESS with
    | some address => address
    | none => DEFAULT_ORIGIN_ADDRESS
  Except.ok { origin_address := origin_address, auxiliary_address := auxiliary_address }

/-- Modelled from the spec: the blockchain module is declared in
src/lib.rs (mod blockchain) but its source file is not in the snapshot.
The spec treats it as an opaque capability exposing connect(address) to
obtain a client handle, which fails with a connection error when the
endpoint is unreachable, and get_accounts(), an ordered sequence of
account address strings, which fails with a query error when the remote
call fails; failures are propagated unchanged. -/
structure ChainClient (ε Client : Type) where
  connect_to_ethereum : String → Except ε Client
  get_accounts : Client → Except ε (List String)

/-- The node runner (run in src/lib.rs), over an injected chain client:
connect to the origin chain endpoint at the origin address of the config,
query the account list, then print the literal header line and one line
per account. The second component is the list of lines written to
standard output; a failed connect or query propagates the collaborator
error unchanged and writes nothing, since both printing statements come
after both fallible steps. -/
def run {ε Client : Type} (client : ChainClient ε Client) (config : Config) :
    Except ε Unit × List String :=
  match client.connect_to_ethereum config.origin_address with
  | Except.error e => (Except.error e, [])
  | Except.ok ethereum =>
    match client.get_accounts ethereum with
    | Except.error e => (Except.error e, [])
    | Except.ok accounts => (Except.ok (), "Accounts:" :: accounts)

/-- A concrete stand-in chain client whose connect step succeeds and whose
account query returns the two addresses of the end-to-end scenario. -/
def fakeClient : ChainClient String Unit where
  connect_to_ethereum := fun _ => Except.ok ()
  get_accounts := fun _ => Except.ok ["0xAA", "0xBB"]

/-- C1: in every environment where neither MOSAIC_ORIGIN_ADDRESS nor
MOSAIC_AUXILIARY_ADDRESS is set, Config.new returns a Config whose
origin_address is "http://127.0.0.1:8545" and whose auxiliary_address is
"http://127.0.0.1:8546", bit-exact. -/
theorem config_new_defaults (env : Env)
    (ho : env ENV_ORIGIN_ADDRESS = none)
    (ha : env ENV_AUXILIARY_ADDRESS = none) :
    Config.new env =
      Except.ok { origin_address := "http://127.0.0.1:8545",
                  auxiliary_address := "http://127.0.0.1:8546" } := by
  simp [Config.new, ho, ha, DEFAULT_ORIGIN_ADDRESS, DEFAULT_AUXILIARY_ADDRESS]

/-- C1 witness: the empty environment resolves to the two defaults. -/
theorem config_new_defaults_witness :
    Config.new (fun _ => none) =
      Except.ok { origin_address := "http://127.0.0.1:8545",
                  auxiliary_address := "http://127.0.0.1:8546" } :=
  config_new_defaults (fun _ => none) rfl rfl

/-- C2: each variable is handled independently: a present readable value
is used verbatim (Option.getD the compiled-in default describes both
cases at once); in particular, with both variables set to V1 and V2 the
result is exactly that pair of values, and with only the origin variable
set to V the result pairs V with the auxiliary default. -/
theorem config_new_verbatim :
    (∀ env : Env, Config.new env =
      Except.ok { origin_address := (env ENV_ORIGIN_ADDRESS).getD DEFAULT_ORIGIN_ADDRESS,
                  auxiliary_address := (env ENV_AUXILIARY_ADDRESS).getD DEFAULT_AUXILIARY_ADDRESS })
    ∧ (∀ (env : Env) (v1 v2 : String),
        env ENV_ORIGIN_ADDRESS = some v1 → env ENV_AUXILIARY_ADDRESS = some v2 →
        Config.new env = Except.ok { origin_address := v1, auxiliary_address := v2 })
    ∧ (∀ (env : Env) (v : String),
        env ENV_ORIGIN_ADDRESS = some v → env ENV_AUXILIARY_ADDRESS = none →
        Config.new env =
          Except.ok { origin_address := v,
                      auxiliary_address := DEFAULT_AUXILIARY_ADDRESS }) := by
  refine ⟨fun env => ?_, fun env v1 v2 h1 h2 => ?_, fun env v h1 h2 => ?_⟩
  · unfold Config.new
    cases env ENV_ORIGIN_ADDRESS <;> cases env ENV_AUXILIARY_ADDRESS <;> rfl
  · simp [Config.new, h1, h2]
  · simp [Config.new, h1, h2]

/-- C3 counterexample: the never-empty part of the invariant fails: in an
environment that sets the origin variable to the empty string, the
resolved origin_address is the empty string. -/
theorem config_nonempty_counterexample :
    ¬ (∀ (env : Env) (c : Config),
        Config.new env = Except.ok c → c.origin_address ≠ "") := by
  intro h
  exact h (fun n => if n = ENV_ORIGIN_ADDRESS then some "" else none)
    { origin_address := "", auxiliary_address := DEFAULT_AUXILIARY_ADDRESS }
    (by simp [Config.new, ENV_ORIGIN_ADDRESS, ENV_AUXILIARY_ADDRESS]) rfl

/-- C3 amended: for every environment Config.new succeeds, each field is
either the environment-supplied value (verbatim, possibly empty) or the
compiled-in default for that variable, and each field is non-empty
whenever its variable is not set to the empty string. -/
theorem config_new_invariant (env : Env) :
    ∃ c : Config, Config.new env = Except.ok c
      ∧ (env ENV_ORIGIN_ADDRESS = some c.origin_address
          ∨ c.origin_address = DEFAULT_ORIGIN_ADDRESS)
      ∧ (env ENV_AUXILIARY_ADDRESS = some c.auxiliary_address
          ∨ c.auxiliary_address = DEFAULT_AUXILIARY_ADDRESS)
      ∧ ((∀ v, env ENV_ORIGIN_ADDRESS = some v → v ≠ "") → c.origin_address ≠ "")
      ∧ ((∀ v, env ENV_AUXILIARY_ADDRESS = some v → v ≠ "") →
          c.auxiliary_address ≠ "") := by
  cases hov : env ENV_ORIGIN_ADDRESS with
  | none =>
    cases hav : env ENV_AUXILIARY_ADDRESS with
    | none =>
      refine ⟨{ origin_address := DEFAULT_ORIGIN_ADDRESS,
                auxiliary_address := DEFAULT_AUXILIARY_ADDRESS },
        by simp [Config.new, hov, hav], Or.inr rfl, Or.inr rfl,
        fun _ => ?_, fun _ => ?_⟩
      · show DEFAULT_ORIGIN_ADDRESS ≠ ""
        decide
      · show DEFAULT_AUXILIARY_ADDRESS ≠ ""
        decide
    | some va =>
      refine ⟨{ origin_address := DEFAULT_ORIGIN_ADDRESS, auxiliary_address := va },
        by simp [Config.new, hov, hav], Or.inr rfl, Or.inl rfl,
        fun _ => ?_, fun hne => hne va rfl⟩
      show DEFAULT_ORIGIN_ADDRESS ≠ ""
      decide
  | some vo =>
    cases hav : env ENV_AUXILIARY_ADDRESS with
    | none =>
      refine ⟨{ origin_address := vo, auxiliary_address := DEFAULT_AUXILIARY_ADDRESS },
        by simp [Config.new, hov, hav], Or.inl rfl, Or.inr rfl,
        fun hne => hne vo rfl, fun _ => ?_⟩
      show DEFAULT_AUXILIARY_ADDRESS ≠ ""
      decide
    | some va =>
      exact ⟨{ origin_address := vo, auxiliary_address := va },
        by simp [Config.new, hov, hav], Or.inl rfl, Or.inl rfl,
        fun hne => hne vo rfl, fun hne => hne va rfl⟩

/-- C3 witness: the amended invariant instantiated at the empty
environment. -/
theorem config_new_invariant_witness :
    ∃ c : Config, Config.new (fun _ => none) = Except.ok c
      ∧ ((fun _ => none : Env) ENV_ORIGIN_ADDRESS = some c.origin_address
          ∨ c.origin_address = DEFAULT_ORIGIN_ADDRESS)
      ∧ ((fun _ => none : Env) ENV_AUXILIARY_ADDRESS = some c.auxiliary_address
          ∨ c.auxiliary_address = DEFAULT_AUXILIARY_ADDRESS)
      ∧ ((∀ v, (fun _ => none : Env) ENV_ORIGIN_ADDRESS = some v → v ≠ "") →
          c.origin_address ≠ "")
      ∧ ((∀ v, (fun _ => none : Env) ENV_AUXILIARY_ADDRESS = some v → v ≠ "") →
          c.auxiliary_address ≠ "") :=
  config_new_invariant (fun _ => none)

/-- C4: when the connect step or the accounts query of the chain client
fails, run returns exactly the collaborator error, unchanged, and writes
no lines to standard output; and run fails precisely when one of the two
steps fails. -/
theorem run_propagates_errors {ε Client : Type}
    (client : ChainClient ε Client) (config : Config) :
    (∀ e : ε, client.connect_to_ethereum config.origin_address = Except.error e →
        run client config = (Except.error e, []))
    ∧ (∀ (cl : Client) (e : ε),
        client.connect_to_ethereum config.origin_address = Except.ok cl →
        client.get_accounts cl = Except.error e →
        run client config = (Except.error e, []))
    ∧ ((∃ e : ε, (run client config).1 = Except.error e) ↔
        (∃ e : ε, client.connect_to_ethereum config.origin_address = Except.error e)
        ∨ (∃ (cl : Client) (e : ε),
            client.connect_to_ethereum config.origin_address = Except.ok cl
            ∧ client.get_accounts cl = Except.error e)) := by
  refine ⟨fun e he => by simp [run, he], fun cl e hc hq => by simp [run, hc, hq], ?_⟩
  constructor
  · rintro ⟨e, he⟩
    cases hc : client.connect_to_ethereum config.origin_address with
    | error e0 =>
      exact Or.inl ⟨e0, rfl⟩
    | ok cl =>
      cases hq : client.get_accounts cl with
      | error e1 =>
        exact Or.inr ⟨cl, e1, rfl, hq⟩
      | ok accounts =>
        simp [run, hc, hq] at he
  · rintro (⟨e, he⟩ | ⟨cl, e, hc, hq⟩)
    · exact ⟨e, by simp [run, he]⟩
    · exact ⟨e, by simp [run, hc, hq]⟩

/-- C5: configuration resolution never fails: for every environment
Config.new returns a Config and never its declared error value. -/
theorem config_new_never_fails (env : Env) :
    (∃ c : Config, Config.new env = Except.ok c)
    ∧ ∀ msg : String, Config.new env ≠ Except.error msg :=
  ⟨⟨_, rfl⟩, fun _ h => by cases h⟩

/-- C6: on a successful connect and accounts query, run writes exactly the
literal header line followed by one line per account address, in the
order supplied by the chain client, and returns success. -/
theorem run_success_output {ε Client : Type}
    (client : ChainClient ε Client) (config : Config)
    (cl : Client) (accounts : List String)
    (hc : client.connect_to_ethereum config.origin_address = Except.ok cl)
    (hq : client.get_accounts cl = Except.ok accounts) :
    run client config = (Except.ok (), "Accounts:" :: accounts) := by
  simp [run, hc, hq]

/-- C6 witness: the fake client returning the two scenario accounts makes
run write the header and the two account lines, in order, and succeed. -/
theorem run_success_output_witness :
    run fakeClient { origin_address := "http://127.0.0.1:8545",
                     auxiliary_address := "http://127.0.0.1:8546" }
      = (Except.ok (), ["Accounts:", "0xAA", "0xBB"]) :=
  run_success_output fakeClient
    { origin_address := "http://127.0.0.1:8545",
      auxiliary_address := "http://127.0.0.1:8546" }
    () ["0xAA", "0xBB"] rfl rfl

/-- C7: the two resolutions are independent: environments that agree on
the origin variable resolve to the same origin_address whatever the
auxiliary variable holds, and symmetrically; and performing the two
lookups in the opposite order yields the same Config, so they commute. -/
theorem config_resolution_independent (env1 env2 : Env) :
    (env1 ENV_ORIGIN_ADDRESS = env2 ENV_ORIGIN_ADDRESS →
      ∃ c1 c2 : Config, Config.new env1 = Except.ok c1
        ∧ Config.new env2 = Except.ok c2
        ∧ c1.origin_address = c2.origin_address)
    ∧ (env1 ENV_AUXILIARY_ADDRESS = env2 ENV_AUXILIARY_ADDRESS →
      ∃ c1 c2 : Config, Config.new env1 = Except.ok c1
        ∧ Config.new env2 = Except.ok c2
        ∧ c1.auxiliary_address = c2.auxiliary_address)
    ∧ Config.new env1 = Config.newAuxiliaryFirst env1 := by
  refine ⟨fun h => ⟨_, _, rfl, rfl, ?_⟩, fun h => ⟨_, _, rfl, rfl, ?_⟩, ?_⟩
  · simp only [Config.new, h]
  · simp only [Config.new, h]
  · rfl

/-- C8: resolution is deterministic for a fixed environment snapshot: two
results of Config.new on the same environment are field-wise equal. -/
theorem config_new_idempotent (env : Env) (c1 c2 : Config)
    (h1 : Config.new env = Except.ok c1) (h2 : Config.new env = Except.ok c2) :
    c1.origin_address = c2.origin_address
    ∧ c1.auxiliary_address = c2.auxiliary_address := by
  rw [h1] at h2
  cases h2
  exact ⟨rfl, rfl⟩

/-- C8 witness: two resolutions against the empty environment agree on
both fields. -/
theorem config_new_idempotent_witness :
    ({ origin_address := "http://127.0.0.1:8545",
       auxiliary_address := "http://127.0.0.1:8546" } : Config).origin_address
      = ({ origin_address := "http://127.0.0.1:8545",
           auxiliary_address := "http://127.0.0.1:8546" } : Config).origin_address
    ∧ ({ origin_address := "http://127.0.0.1:8545",
         auxiliary_address := "http://127.0.0.1:8546" } : Config).auxiliary_address
      = ({ origin_address := "http://127.0.0.1:8545",
           auxiliary_address := "http://127.0.0.1:8546" } : Config).auxiliary_address :=
  config_new_idempotent (fun _ => none) _ _ rfl rfl

/-- C9: run does not depend on auxiliary_address: two configs that agree
on origin_address but differ in auxiliary_address give the same result
and the same standard-output content. -/
theorem run_ignores_auxiliary {ε Client : Type}
    (client : ChainClient ε Client) (c1 c2 : Config)
    (hagree : c1.origin_address = c2.origin_address)
    (_hdiff : c1.auxiliary_address ≠ c2.auxiliary_address) :
    run client c1 = run client c2 := by
  unfold run
  rw [hagree]

/-- C9 witness: two configs sharing the origin address but with different
auxiliary addresses drive run identically. -/
theorem run_ignores_auxiliary_witness :
    run fakeClient { origin_address := "http://127.0.0.1:8545",
                     auxiliary_address := "one" }
      = run fakeClient { origin_address := "http://127.0.0.1:8545",
                         auxiliary_address := "two" } :=
  run_ignores_auxiliary fakeClient
    { origin_address := "http://127.0.0.1:8545", auxiliary_address := "one" }
    { origin_address := "http://127.0.0.1:8545", auxiliary_address := "two" }
    rfl (by decide)

/-- C10: a variable set to the empty string is treated as present: the
corresponding Config field is the empty string and no fallback to the
default occurs. -/
theorem config_new_empty_string :
    (∀ env : Env, env ENV_ORIGIN_ADDRESS = some "" →
      ∃ c : Config, Config.new env = Except.ok c ∧ c.origin_address = ""
        ∧ c.origin_address ≠ DEFAULT_ORIGIN_ADDRESS)
    ∧ (∀ env : Env, env ENV_AUXILIARY_ADDRESS = some "" →
      ∃ c : Config, Config.new env = Except.ok c ∧ c.auxiliary_address = ""
        ∧ c.auxiliary_address ≠ DEFAULT_AUXILIARY_ADDRESS) := by
  constructor
  · intro env h
    cases hav : env ENV_AUXILIARY_ADDRESS with
    | none =>
      exact ⟨{ origin_address := "", auxiliary_address := DEFAULT_AUXILIARY_ADDRESS },
        by simp [Config.new, h, hav], rfl, by decide⟩
    | some va =>
      refine ⟨{ origin_address := "", auxiliary_address := va },
        by simp [Config.new, h, hav], rfl, ?_⟩
      show ("" : String) ≠ DEFAULT_ORIGIN_ADDRESS
      decide
  · intro env h
    cases hov : env ENV_ORIGIN_ADDRESS with
    | none =>
      exact ⟨{ origin_address := DEFAULT_ORIGIN_ADDRESS, auxiliary_address := "" },
        by simp [Config.new, h, hov], rfl, by decide⟩
    | some vo =>
      refine ⟨{ origin_address := vo, auxiliary_address := "" },
        by simp [Config.new, h, hov], rfl, ?_⟩
      show ("" : String) ≠ DEFAULT_AUXILIARY_ADDRESS
      decide

end Mosaic
